import Mathlib

/-!
Verification of the `Video` class in `video.py`, a thin wrapper over
`cv2.VideoCapture`.  The wrapped library is modelled as a `Capture` state:
an open flag, the decoded frame list, and the integer play-head
(`CAP_PROP_POS_FRAMES`).  Each Python method becomes a function returning
an `Except`-style result (raised exceptions become `.error`) together with
the mutated object state, since a Python exception leaves prior mutations
in place.
-/

/-- A decoded image buffer.  `gray = true` after a `cv2.cvtColor(·, COLOR_BGR2GRAY)`
conversion; `id` identifies the frame content. -/
structure Frame where
  id : Nat
  gray : Bool
deriving DecidableEq, Repr

/-- `cv2.cvtColor(frame, cv2.COLOR_BGR2GRAY)` on a real (non-null) frame. -/
def cvtColor (f : Frame) : Frame := { f with gray := true }

/-- The `if cvtgray: data = cv2.cvtColor(data, ...)` step of the loops. -/
def grayIf (g : Bool) (f : Frame) : Frame := if g then cvtColor f else f

/-- Python exception classes raised by the code (with their messages). -/
inductive PyError where
  | ioError (msg : String)
  | valueError (msg : String)
  | runtimeError (msg : String)
  | cvError
  | attributeError (msg : String)
deriving DecidableEq, Repr

/-- State of a `cv2.VideoCapture` session: the open flag, the stream of
decodable frames, the reported width and height, and the play-head
(`CAP_PROP_POS_FRAMES`), which `seek` can set to any integer. -/
structure Capture where
  isOpened : Bool
  frames : List Frame
  w : Int
  h : Int
  pos : Int
deriving DecidableEq, Repr

/-- `cap.get(cv2.CAP_PROP_FRAME_COUNT)`: the frame count, `0` on a closed
capture (cv2 reports `0.0` for any property of an unopened capture). -/
def Capture.getFrameCount (c : Capture) : Int :=
  if c.isOpened then (c.frames.length : Int) else 0

/-- `cap.get(cv2.CAP_PROP_FRAME_WIDTH)`. -/
def Capture.getWidth (c : Capture) : Int := if c.isOpened then c.w else 0

/-- `cap.get(cv2.CAP_PROP_FRAME_HEIGHT)`. -/
def Capture.getHeight (c : Capture) : Int := if c.isOpened then c.h else 0

/-- `cap.set(cv2.CAP_PROP_POS_FRAMES, i)`: repositions the play-head; a
closed capture ignores the call (cv2 returns `False` and does nothing). -/
def Capture.set (c : Capture) (i : Int) : Capture :=
  if c.isOpened then { c with pos := i } else c

/-- `cap.read()`: returns `(ret, data)` as `some frame` (ret `True`) or
`none` (ret `False`, data `None`), advancing the play-head on success.
A closed capture, or a play-head outside the decodable stream, reads
nothing. -/
def Capture.read (c : Capture) : Option Frame × Capture :=
  if c.isOpened then
    if hp : 0 ≤ c.pos ∧ c.pos.toNat < c.frames.length then
      (some (c.frames.get ⟨c.pos.toNat, hp.2⟩), { c with pos := c.pos + 1 })
    else (none, c)
  else (none, c)

/-- The `Video` object: the capture session plus the derived path/name
strings computed in `__init__`. -/
structure Video where
  cap : Capture
  path : String
  name : String
deriving DecidableEq, Repr

/-- The `length` property: `int(self.cap.get(cv2.CAP_PROP_FRAME_COUNT))`. -/
def Video.length (v : Video) : Int := v.cap.getFrameCount

/-- The `width` property. -/
def Video.width (v : Video) : Int := v.cap.getWidth

/-- The `height` property. -/
def Video.height (v : Video) : Int := v.cap.getHeight

/-- The `shape` property: `(nframes, height, width)`. -/
def Video.shape (v : Video) : Int × Int × Int := (v.length, v.height, v.width)

/-- `__getitem__(self, index)`: checks openness, then `index >= count`,
then seeks to `index` and reads one frame, raising `RuntimeError` if the
read fails.  There is no check for negative `index`. -/
def Video.getitem (v : Video) (index : Int) : Except PyError Frame × Video :=
  if ¬ v.cap.isOpened then
    (.error (.ioError ("Video " ++ v.path ++ " is not open")), v)
  else
    let count := v.length
    if index ≥ count then
      (.error (.valueError "index must be less than video total frames"), v)
    else
      let cap1 := v.cap.set index
      let (data, cap2) := cap1.read
      let v2 := { v with cap := cap2 }
      match data with
      | some f => (.ok f, v2)
      | none => (.error (.runtimeError "frame not read"), v2)

/-- `next(self, cvtgray=False)`: checks openness, reads `(ret, data)`, and
if `cvtgray` applies `cv2.cvtColor` to `data` — which raises when the read
failed and `data` is `None`.  Returns the `(ret, data)` pair. -/
def Video.next (v : Video) (cvtgray : Bool) :
    Except PyError (Bool × Option Frame) × Video :=
  if ¬ v.cap.isOpened then
    (.error (.ioError ("Video " ++ v.path ++ " is not open")), v)
  else
    let (data, cap2) := v.cap.read
    let v2 := { v with cap := cap2 }
    if cvtgray then
      match data with
      | some f => (.ok (true, some (cvtColor f)), v2)
      | none => (.error .cvError, v2)
    else
      (.ok (data.isSome, data), v2)

/-- The `ret, data = self.cap.read(); while ret: ... yield ...; read`
body of `__iter__`, fully consumed: reads frames until a read fails.
`fuel` bounds the iteration; `frames.length + 1` steps always reach the
failing read, since each successful read advances the play-head inside
`[0, frames.length)`. -/
def readAll : Nat → Capture → Bool → List Frame × Capture
  | 0, c, _ => ([], c)
  | Nat.succ n, c, g =>
    match c.read with
    | (some f, c2) =>
      let (rest, c3) := readAll n c2 g
      (grayIf g f :: rest, c3)
    | (none, c2) => ([], c2)

/-- `reset(self)`: checks openness and repositions the play-head to 0. -/
def Video.reset (v : Video) : Except PyError Unit × Video :=
  if ¬ v.cap.isOpened then
    (.error (.ioError ("Video " ++ v.path ++ " is not open")), v)
  else
    (.ok (), { v with cap := v.cap.set 0 })

/-- `seek(self, frameid)`: checks openness and repositions the play-head,
with no validation of `frameid`. -/
def Video.seek (v : Video) (frameid : Int) : Except PyError Unit × Video :=
  if ¬ v.cap.isOpened then
    (.error (.ioError ("Video " ++ v.path ++ " is not open")), v)
  else
    (.ok (), { v with cap := v.cap.set frameid })

/-- `__iter__(self, cvtgray=False)`, run to exhaustion: checks openness,
yields frames until a read fails, then calls `self.reset()`. -/
def Video.iterAll (v : Video) (cvtgray : Bool) :
    Except PyError (List Frame) × Video :=
  if ¬ v.cap.isOpened then
    (.error (.ioError ("Video " ++ v.path ++ " is not open")), v)
  else
    let (fs, cap2) := readAll (v.cap.frames.length + 1) v.cap cvtgray
    let v2 := { v with cap := cap2 }
    match v2.reset with
    | (.ok _, v3) => (.ok fs, v3)
    | (.error e, v3) => (.error e, v3)

/-- The `while self.cap.isOpened() and start <= final:` loop of `snippet`:
reads a frame, breaks on a failed read, optionally converts to gray,
appends, and increments `start`.  `fuel` bounds the iteration;
`(final - start).toNat + 1` steps suffice since `start` increments each
iteration. -/
def snippetLoop : Nat → Capture → Int → Int → Bool → List Frame × Capture
  | 0, c, _, _, _ => ([], c)
  | Nat.succ n, c, start, final, g =>
    if c.isOpened ∧ start ≤ final then
      match c.read with
      | (some f, c2) =>
        let (rest, c3) := snippetLoop n c2 (start + 1) final g
        (grayIf g f :: rest, c3)
      | (none, c2) => ([], c2)
    else ([], c)

/-- `snippet(self, start=0, final=0, cvtgray=False)`: reads the raw frame
count, substitutes `final = count` when `final == 0`, validates the range
(note: no openness check), seeks to `start`, collects frames while
`start <= final`, and finally resets the play-head to 0. -/
def Video.snippet (v : Video) (start final : Int) (cvtgray : Bool) :
    Except PyError (List Frame) × Video :=
  let count := v.cap.getFrameCount
  let final := if final = 0 then count else final
  if start ≥ count then
    (.error (.valueError "start must be less than video total frames"), v)
  else if start < 0 ∨ final < 0 then
    (.error (.valueError "start and final must be positive"), v)
  else if final < start then
    (.error (.valueError "start must be less than final"), v)
  else
    let cap1 := v.cap.set start
    let (frames, cap2) := snippetLoop ((final - start).toNat + 1) cap1 start final cvtgray
    let cap3 := cap2.set 0
    (.ok frames, { v with cap := cap3 })

/-- The display loop of `show`: like `snippetLoop`, but after `imshow`
each frame it polls `cv2.waitKey(delay)` and breaks when the key masked
with `0xFF` is `ord('q') = 113`.  Pending key codes are supplied as a
list, `-1` (no key) when exhausted.  The frames shown are returned as the
observable trace. -/
def showLoop : Nat → Capture → Int → Int → Bool → List Int → List Frame × Capture
  | 0, c, _, _, _, _ => ([], c)
  | Nat.succ n, c, start, final, g, keys =>
    if c.isOpened ∧ start ≤ final then
      match c.read with
      | (some f, c2) =>
        let k := keys.headD (-1)
        if k % 256 = 113 then (grayIf g f :: [], c2)
        else
          let (rest, c3) := showLoop n c2 (start + 1) final g (keys.tail)
          (grayIf g f :: rest, c3)
      | (none, c2) => ([], c2)
    else ([], c)

/-- `show(self, start=0, final=0, delay=10, cvtgray=False)` (the spec's
`display`): same range validation as `snippet` (and likewise no openness
check), then the display loop, then a reset of the play-head to 0 and
`cv2.destroyAllWindows()`. -/
def Video.display (v : Video) (start final : Int) (cvtgray : Bool)
    (keys : List Int) : Except PyError (List Frame) × Video :=
  let count := v.cap.getFrameCount
  let final := if final = 0 then count else final
  if start ≥ count then
    (.error (.valueError "start must be less than video total frames"), v)
  else if start < 0 ∨ final < 0 then
    (.error (.valueError "start and final must be positive"), v)
  else if final < start then
    (.error (.valueError "start must be less than final"), v)
  else
    let cap1 := v.cap.set start
    let (shown, cap2) := showLoop ((final - start).toNat + 1) cap1 start final cvtgray keys
    let cap3 := cap2.set 0
    (.ok shown, { v with cap := cap3 })

/-- `astensor(self)`: reads `self.shape`, builds `np.array(...)`, then
iterates `self.iterframes()` — an attribute the `Video` class never
defines, so the attribute lookup raises before any frame is stored and
the `return tensor` line is unreachable. -/
def Video.astensor (v : Video) : Except PyError (List Frame) × Video :=
  let _shape := v.shape
  (.error (.attributeError "Video object has no attribute iterframes"), v)

/-! Concrete objects used as witnesses and counterexamples. -/

def f0 : Frame := ⟨0, false⟩
def f1 : Frame := ⟨1, false⟩
def f2 : Frame := ⟨2, false⟩

/-- An open three-frame video with the play-head at 0. -/
def vid3 : Video :=
  { cap := { isOpened := true, frames := [f0, f1, f2], w := 4, h := 3, pos := 0 },
    path := "vids", name := "a.mp4" }

/-- An open two-frame video with the play-head at 0. -/
def vid2 : Video :=
  { cap := { isOpened := true, frames := [f0, f1], w := 4, h := 3, pos := 0 },
    path := "vids", name := "b.mp4" }

/-- An open one-frame video whose play-head is already past end-of-stream. -/
def vidEOS : Video :=
  { cap := { isOpened := true, frames := [f0], w := 4, h := 3, pos := 1 },
    path := "vids", name := "c.mp4" }

/-- A video whose capture session is not open. -/
def vidClosed : Video :=
  { cap := { isOpened := false, frames := [], w := 0, h := 0, pos := 0 },
    path := "vids", name := "d.mp4" }

/-- An open three-frame video with the play-head parked at 2. -/
def vidMid : Video :=
  { cap := { isOpened := true, frames := [f0, f1, f2], w := 4, h := 3, pos := 2 },
    path := "vids", name := "e.mp4" }

lemma Capture.read_isOpened (c : Capture) : c.read.2.isOpened = c.isOpened := by
  unfold Capture.read
  split
  · split <;> rfl
  · rfl

lemma Capture.read_frames (c : Capture) : c.read.2.frames = c.frames := by
  unfold Capture.read
  split
  · split <;> rfl
  · rfl

lemma Capture.read_open (c : Capture) (ho : c.isOpened = true) :
    c.read = if hp : 0 ≤ c.pos ∧ c.pos.toNat < c.frames.length
      then (some (c.frames.get ⟨c.pos.toNat, hp.2⟩), { c with pos := c.pos + 1 })
      else (none, c) := by
  unfold Capture.read
  rw [ho]
  simp

lemma Capture.set_open (c : Capture) (i : Int) (ho : c.isOpened = true) :
    c.set i = { c with pos := i } := by
  unfold Capture.set; rw [ho]; simp

lemma snippetLoop_isOpened (n : Nat) (c : Capture) (s f : Int) (g : Bool) :
    (snippetLoop n c s f g).2.isOpened = c.isOpened := by
  induction n generalizing c s with
  | zero => rfl
  | succ n ih =>
    unfold snippetLoop
    split
    · rcases hr : c.read with ⟨data, c2⟩
      have h2 : c2.isOpened = c.isOpened := by
        have := Capture.read_isOpened c
        rw [hr] at this; exact this
      cases data with
      | some f' => simpa using (ih c2 (s + 1)).trans h2
      | none => simpa using h2
    · rfl

lemma showLoop_isOpened (n : Nat) (c : Capture) (s f : Int) (g : Bool) (keys : List Int) :
    (showLoop n c s f g keys).2.isOpened = c.isOpened := by
  induction n generalizing c s keys with
  | zero => rfl
  | succ n ih =>
    unfold showLoop
    split
    · rcases hr : c.read with ⟨data, c2⟩
      have h2 : c2.isOpened = c.isOpened := by
        have := Capture.read_isOpened c
        rw [hr] at this; exact this
      cases data with
      | some f' =>
        simp only []
        split
        · simpa using h2
        · simpa using (ih c2 (s + 1) keys.tail).trans h2
      | none => simpa using h2
    · rfl

lemma readAll_isOpened (n : Nat) (c : Capture) (g : Bool) :
    (readAll n c g).2.isOpened = c.isOpened := by
  induction n generalizing c with
  | zero => rfl
  | succ n ih =>
    unfold readAll
    rcases hr : c.read with ⟨data, c2⟩
    have h2 : c2.isOpened = c.isOpened := by
      have := Capture.read_isOpened c
      rw [hr] at this; exact this
    cases data with
    | some f' => simpa using (ih c2).trans h2
    | none => simpa using h2

lemma snippetLoop_stop (n : Nat) (c : Capture) (s f : Int) (g : Bool) (h : f < s) :
    snippetLoop n c s f g = ([], c) := by
  cases n with
  | zero => rfl
  | succ n =>
    unfold snippetLoop
    split
    · next hc => exact absurd hc.2 (not_le.mpr h)
    · rfl

lemma snippetLoop_spec (k : Nat) : ∀ (n : Nat) (c : Capture) (s final : Int) (g : Bool),
    c.isOpened = true → c.pos = s → 0 ≤ s →
    (final - s).toNat = k → k < n → s ≤ final →
    (snippetLoop n c s final g).1
      = ((c.frames.drop s.toNat).take (k + 1)).map (grayIf g) := by
  induction k with
  | zero =>
    intro n c s final g ho hpos hs hk hn hsf
    obtain ⟨m, rfl⟩ : ∃ m, n = m + 1 := ⟨n - 1, by omega⟩
    unfold snippetLoop
    rw [if_pos ⟨ho, hsf⟩, Capture.read_open c ho]
    by_cases hlen : 0 ≤ c.pos ∧ c.pos.toNat < c.frames.length
    · rw [dif_pos hlen]
      have hlen2 : s.toNat < c.frames.length := by rw [hpos] at hlen; exact hlen.2
      simp only [snippetLoop_stop m _ (s + 1) final g (by omega)]
      rw [List.drop_eq_getElem_cons hlen2, List.take_succ_cons, List.take_zero,
        List.map_cons, List.map_nil]
      simp [hpos]
    · rw [dif_neg hlen]
      have hdrop : c.frames.drop s.toNat = [] :=
        List.drop_eq_nil_of_le (by rw [hpos] at hlen; omega)
      simp [hdrop]
  | succ j ih =>
    intro n c s final g ho hpos hs hk hn hsf
    obtain ⟨m, rfl⟩ : ∃ m, n = m + 1 := ⟨n - 1, by omega⟩
    unfold snippetLoop
    rw [if_pos ⟨ho, hsf⟩, Capture.read_open c ho]
    by_cases hlen : 0 ≤ c.pos ∧ c.pos.toNat < c.frames.length
    · rw [dif_pos hlen]
      have hlen2 : s.toNat < c.frames.length := by rw [hpos] at hlen; exact hlen.2
      have hrec := ih m { c with pos := c.pos + 1 } (s + 1) final g ho
        (by simp [hpos]) (by omega) (by omega) (by omega) (by omega)
      simp only [] at hrec ⊢
      rw [hrec]
      rw [List.drop_eq_getElem_cons hlen2, List.take_succ_cons, List.map_cons]
      have h1 : (s + 1).toNat = s.toNat + 1 := by omega
      simp [hpos, h1]
    · rw [dif_neg hlen]
      have hdrop : c.frames.drop s.toNat = [] :=
        List.drop_eq_nil_of_le (by rw [hpos] at hlen; omega)
      simp [hdrop]

lemma snippet_result (v : Video) (start final : Int) (g : Bool)
    (ho : v.cap.isOpened = true) (h0 : 0 ≤ start) (h1 : start < v.length)
    (h2 : start ≤ final) (h3 : 0 < final) :
    (v.snippet start final g).1
      = .ok (((v.cap.frames.drop start.toNat).take ((final - start).toNat + 1)).map (grayIf g)) := by
  have hcount : v.cap.getFrameCount = (v.cap.frames.length : Int) := by
    simp [Capture.getFrameCount, ho]
  have h1' : start < (v.cap.frames.length : Int) := by
    rw [Video.length, hcount] at h1; exact h1
  have hfin : ¬ final = 0 := by omega
  simp only [Video.snippet]
  rw [if_neg hfin, hcount]
  rw [if_neg (by omega : ¬ start ≥ (v.cap.frames.length : Int))]
  rw [if_neg (by omega : ¬ (start < 0 ∨ final < 0))]
  rw [if_neg (by omega : ¬ final < start)]
  rw [Capture.set_open _ _ ho]
  have hloop := snippetLoop_spec ((final - start).toNat) ((final - start).toNat + 1)
    { v.cap with pos := start } start final g ho rfl h0 rfl (by omega) h2
  rcases hsl : snippetLoop ((final - start).toNat + 1) { v.cap with pos := start } start final g
    with ⟨fr, cap2⟩
  rw [hsl] at hloop
  simp only [] at hloop
  simp [hsl, hloop]

lemma Capture.set_isOpened (c : Capture) (i : Int) : (c.set i).isOpened = c.isOpened := by
  unfold Capture.set; split <;> rfl

lemma snippet_zero_zero (v : Video) (g : Bool)
    (ho : v.cap.isOpened = true) (hne : v.cap.frames ≠ []) :
    (v.snippet 0 0 g).1 = .ok (v.cap.frames.map (grayIf g)) := by
  have hcount : v.cap.getFrameCount = (v.cap.frames.length : Int) := by
    simp [Capture.getFrameCount, ho]
  have hlen : 0 < v.cap.frames.length := List.length_pos.mpr hne
  simp only [Video.snippet]
  rw [hcount]
  simp only [if_true]
  rw [if_neg (by omega : ¬ (0 : Int) ≥ (v.cap.frames.length : Int))]
  rw [if_neg (by omega : ¬ ((0 : Int) < 0 ∨ (v.cap.frames.length : Int) < 0))]
  rw [if_neg (by omega : ¬ (v.cap.frames.length : Int) < 0)]
  rw [Capture.set_open _ _ ho]
  have hloop := snippetLoop_spec (((v.cap.frames.length : Int) - 0).toNat)
    ((((v.cap.frames.length : Int)) - 0).toNat + 1)
    { v.cap with pos := 0 } 0 (v.cap.frames.length : Int) g ho rfl (by omega) rfl
    (by omega) (by omega)
  simp only [] at hloop
  rw [Int.toNat_zero, List.drop_zero] at hloop
  rw [List.take_of_length_le (by omega)] at hloop
  have hfuel : (((v.cap.frames.length : Int)) - 0).toNat + 1 = v.cap.frames.length + 1 := by omega
  rw [hfuel] at hloop
  simp [hloop]

lemma snippet_pos_zero (v : Video) (start final : Int) (g : Bool)
    (ho : v.cap.isOpened = true) (h0 : 0 ≤ start) (h1 : start < v.length)
    (hv : 0 ≤ final) (h2 : final = 0 ∨ start ≤ final) :
    (v.snippet start final g).2.cap.pos = 0 := by
  have hcount : v.cap.getFrameCount = (v.cap.frames.length : Int) := by
    simp [Capture.getFrameCount, ho]
  have h1' : start < (v.cap.frames.length : Int) := by
    rw [Video.length, hcount] at h1; exact h1
  simp only [Video.snippet, hcount]
  by_cases hf : final = 0
  · rw [if_pos hf]
    rw [if_neg (by omega : ¬ start ≥ (v.cap.frames.length : Int))]
    rw [if_neg (by omega : ¬ (start < 0 ∨ (v.cap.frames.length : Int) < 0))]
    rw [if_neg (by omega : ¬ (v.cap.frames.length : Int) < start)]
    have hop : (snippetLoop (((v.cap.frames.length : Int) - start).toNat + 1)
        (v.cap.set start) start (v.cap.frames.length : Int) g).2.isOpened = true := by
      rw [snippetLoop_isOpened, Capture.set_isOpened, ho]
    simp only []
    rw [Capture.set_open _ _ hop]
  · have hsf : start ≤ final := by omega
    rw [if_neg hf]
    rw [if_neg (by omega : ¬ start ≥ (v.cap.frames.length : Int))]
    rw [if_neg (by omega : ¬ (start < 0 ∨ final < 0))]
    rw [if_neg (by omega : ¬ final < start)]
    have hop : (snippetLoop ((final - start).toNat + 1)
        (v.cap.set start) start final g).2.isOpened = true := by
      rw [snippetLoop_isOpened, Capture.set_isOpened, ho]
    simp only []
    rw [Capture.set_open _ _ hop]

lemma display_pos_zero (v : Video) (start final : Int) (g : Bool) (keys : List Int)
    (ho : v.cap.isOpened = true) (h0 : 0 ≤ start) (h1 : start < v.length)
    (hv : 0 ≤ final) (h2 : final = 0 ∨ start ≤ final) :
    (v.display start final g keys).2.cap.pos = 0 := by
  have hcount : v.cap.getFrameCount = (v.cap.frames.length : Int) := by
    simp [Capture.getFrameCount, ho]
  have h1' : start < (v.cap.frames.length : Int) := by
    rw [Video.length, hcount] at h1; exact h1
  simp only [Video.display, hcount]
  by_cases hf : final = 0
  · rw [if_pos hf]
    rw [if_neg (by omega : ¬ start ≥ (v.cap.frames.length : Int))]
    rw [if_neg (by omega : ¬ (start < 0 ∨ (v.cap.frames.length : Int) < 0))]
    rw [if_neg (by omega : ¬ (v.cap.frames.length : Int) < start)]
    have hop : (showLoop (((v.cap.frames.length : Int) - start).toNat + 1)
        (v.cap.set start) start (v.cap.frames.length : Int) g keys).2.isOpened = true := by
      rw [showLoop_isOpened, Capture.set_isOpened, ho]
    simp only []
    rw [Capture.set_open _ _ hop]
  · have hsf : start ≤ final := by omega
    rw [if_neg hf]
    rw [if_neg (by omega : ¬ start ≥ (v.cap.frames.length : Int))]
    rw [if_neg (by omega : ¬ (start < 0 ∨ final < 0))]
    rw [if_neg (by omega : ¬ final < start)]
    have hop : (showLoop ((final - start).toNat + 1)
        (v.cap.set start) start final g keys).2.isOpened = true := by
      rw [showLoop_isOpened, Capture.set_isOpened, ho]
    simp only []
    rw [Capture.set_open _ _ hop]

lemma iterAll_pos_zero (v : Video) (g : Bool) (ho : v.cap.isOpened = true) :
    (v.iterAll g).2.cap.pos = 0 := by
  simp only [Video.iterAll, ho]
  rw [if_neg (by simp)]
  have hop : (readAll (v.cap.frames.length + 1) v.cap g).2.isOpened = true := by
    rw [readAll_isOpened, ho]
  simp only [Video.reset]
  rw [if_neg (by simp [hop])]
  simp [Capture.set_open _ _ hop]

lemma next_eos_false (v : Video) (ho : v.cap.isOpened = true)
    (heos : (v.cap.frames.length : Int) ≤ v.cap.pos) :
    (v.next false).1 = .ok (false, none) := by
  have hread : v.cap.read = (none, v.cap) := by
    rw [Capture.read_open v.cap ho, dif_neg (by omega)]
  simp only [Video.next]
  rw [if_neg (by simp [ho]), hread]
  rfl

lemma next_eos_gray (v : Video) (ho : v.cap.isOpened = true)
    (heos : (v.cap.frames.length : Int) ≤ v.cap.pos) :
    (v.next true).1 = .error .cvError := by
  have hread : v.cap.read = (none, v.cap) := by
    rw [Capture.read_open v.cap ho, dif_neg (by omega)]
  simp only [Video.next]
  rw [if_neg (by simp [ho]), hread]
  rfl

lemma getitem_valueError_iff (v : Video) (index : Int) (ho : v.cap.isOpened = true) :
    ((v.getitem index).1 = .error (.valueError "index must be less than video total frames")
      ↔ v.length ≤ index) := by
  have hcount : v.length = (v.cap.frames.length : Int) := by
    simp [Video.length, Capture.getFrameCount, ho]
  rw [hcount]
  simp only [Video.getitem]
  rw [if_neg (by simp [ho]), hcount]
  by_cases hge : index ≥ (v.cap.frames.length : Int)
  · rw [if_pos hge]
    simpa using hge
  · rw [if_neg hge]
    rw [Capture.set_open _ _ ho]
    by_cases hneg : 0 ≤ index
    · rw [Capture.read_open { v.cap with pos := index } ho, dif_pos ⟨by simpa using hneg, by simp; omega⟩]
      simp
      omega
    · rw [Capture.read_open { v.cap with pos := index } ho, dif_neg (by simp; omega)]
      simp
      omega

lemma getitem_negative (v : Video) (index : Int) (ho : v.cap.isOpened = true)
    (hneg : index < 0) :
    (v.getitem index).1 = .error (.runtimeError "frame not read")
      ∧ (v.getitem index).2.cap.pos = index := by
  have hcount : v.length = (v.cap.frames.length : Int) := by
    simp [Video.length, Capture.getFrameCount, ho]
  simp only [Video.getitem]
  rw [if_neg (by simp [ho])]
  rw [if_neg (by rw [hcount]; omega : ¬ index ≥ v.length)]
  rw [Capture.set_open _ _ ho]
  rw [Capture.read_open { v.cap with pos := index } ho, dif_neg (by simp; omega)]
  exact ⟨rfl, rfl⟩

lemma snippet_closed (v : Video) (start final : Int) (g : Bool)
    (hc : v.cap.isOpened = false) :
    (v.snippet start final g).1
      = .error (.valueError (if 0 ≤ start then "start must be less than video total frames"
          else "start and final must be positive")) := by
  have hcount : v.cap.getFrameCount = 0 := by
    simp [Capture.getFrameCount, hc]
  simp only [Video.snippet, hcount]
  by_cases hs : 0 ≤ start
  · rw [if_pos (by omega : start ≥ (0 : Int))]
    simp [hs]
  · rw [if_neg (by omega : ¬ start ≥ (0 : Int))]
    rw [if_pos (by omega : start < 0 ∨ (if final = 0 then (0 : Int) else final) < 0)]
    simp [hs]

lemma display_closed (v : Video) (start final : Int) (g : Bool) (keys : List Int)
    (hc : v.cap.isOpened = false) :
    (v.display start final g keys).1
      = .error (.valueError (if 0 ≤ start then "start must be less than video total frames"
          else "start and final must be positive")) := by
  have hcount : v.cap.getFrameCount = 0 := by
    simp [Capture.getFrameCount, hc]
  simp only [Video.display, hcount]
  by_cases hs : 0 ≤ start
  · rw [if_pos (by omega : start ≥ (0 : Int))]
    simp [hs]
  · rw [if_neg (by omega : ¬ start ≥ (0 : Int))]
    rw [if_pos (by omega : start < 0 ∨ (if final = 0 then (0 : Int) else final) < 0)]
    simp [hs]

/-- C1 (counterexample): on the open two-frame video `vid2`, `snippet(0, 0)`
returns both frames, not a single-element list — `final = 0` is replaced by
the frame count, so the whole stream is collected. -/
theorem claim_C1_counterexample :
    (vid2.snippet 0 0 false).1 = Except.ok [f0, f1] ∧ ¬ ([f0, f1].length = 1) :=
  ⟨rfl, by decide⟩

/-- C1 (amended): `snippet(0, 0)` on a non-empty open video returns all the
frames of the video in stream order (`end = 0` is treated as
through-end-of-stream), each grayscale-converted when requested; it returns
exactly one frame only when the video has exactly one frame. -/
theorem claim_C1 (v : Video) (g : Bool) (ho : v.cap.isOpened = true)
    (hne : v.cap.frames ≠ []) :
    (v.snippet 0 0 g).1 = .ok (v.cap.frames.map (grayIf g)) :=
  snippet_zero_zero v g ho hne

/-- C1 (witness): the amended claim evaluated on `vid2`. -/
theorem claim_C1_witness :
    vid2.cap.isOpened = true ∧ vid2.cap.frames ≠ [] ∧
      (vid2.snippet 0 0 false).1 = .ok (vid2.cap.frames.map (grayIf false)) :=
  ⟨by decide, by decide, claim_C1 vid2 false (by decide) (by decide)⟩

/-- C2 (counterexample): `vidEOS` is an open handle past end-of-stream, yet
`next(convertToGray = true)` raises (the grayscale conversion is applied to
the `None` returned by the failed read), contradicting the claim that `next`
never fails at end-of-stream for any value of `convertToGray`. -/
theorem claim_C2_counterexample :
    vidEOS.cap.isOpened = true
    ∧ (vidEOS.cap.frames.length : Int) ≤ vidEOS.cap.pos
    ∧ (vidEOS.next true).1 = Except.error PyError.cvError :=
  ⟨rfl, by decide, rfl⟩

/-- C2 (amended): at or past end-of-stream, `next` with
`convertToGray = false` returns the success flag `false` without raising,
but with `convertToGray = true` it raises, because `cv2.cvtColor` is applied
to the null frame of the failed read. -/
theorem claim_C2 (v : Video) (ho : v.cap.isOpened = true)
    (heos : (v.cap.frames.length : Int) ≤ v.cap.pos) :
    (v.next false).1 = .ok (false, none) ∧ (v.next true).1 = .error .cvError :=
  ⟨next_eos_false v ho heos, next_eos_gray v ho heos⟩

/-- C2 (witness): the amended claim evaluated on `vidEOS`. -/
theorem claim_C2_witness :
    vidEOS.cap.isOpened = true
    ∧ (vidEOS.cap.frames.length : Int) ≤ vidEOS.cap.pos
    ∧ (vidEOS.next false).1 = .ok (false, none)
    ∧ (vidEOS.next true).1 = .error .cvError := by
  refine ⟨by decide, by decide, ?_, ?_⟩
  · exact (claim_C2 vidEOS (by decide) (by decide)).1
  · exact (claim_C2 vidEOS (by decide) (by decide)).2

/-- C3 (counterexample): on the open three-frame video `vid3`, the negative
index `-1` is not rejected with a range error: `__getitem__` seeks to `-1`
(the final play-head is `-1`) and the failed read raises `RuntimeError`,
not the `ValueError` range error the claim requires. -/
theorem claim_C3_counterexample :
    (vid3.getitem (-1)).1 = Except.error (PyError.runtimeError "frame not read")
    ∧ (vid3.getitem (-1)).2.cap.pos = -1 :=
  ⟨rfl, rfl⟩

/-- C3 (amended): on an open handle, `__getitem__` fails with the range
error if and only if `index ≥ frameCount`; a negative index passes
validation, the seek is performed (the play-head ends at the negative
index), and the subsequent failed read raises a read error instead. -/
theorem claim_C3 (v : Video) (index : Int) (ho : v.cap.isOpened = true) :
    ((v.getitem index).1 = .error (.valueError "index must be less than video total frames")
      ↔ v.length ≤ index)
    ∧ (index < 0 →
        (v.getitem index).1 = .error (.runtimeError "frame not read")
          ∧ (v.getitem index).2.cap.pos = index) :=
  ⟨getitem_valueError_iff v index ho, fun hneg => getitem_negative v index ho hneg⟩

/-- C3 (witness): the amended claim evaluated on `vid3` at index `5`. -/
theorem claim_C3_witness :
    vid3.cap.isOpened = true
    ∧ ((vid3.getitem 5).1 = .error (.valueError "index must be less than video total frames")
        ↔ vid3.length ≤ 5) :=
  ⟨by decide, (claim_C3 vid3 5 (by decide)).1⟩

/-- C4 (counterexample): on a handle whose session is not open, `snippet`
and `show` do not fail fast with an I/O-class error: the closed capture
reports frame count `0`, so both raise a range-validation `ValueError`
instead. -/
theorem claim_C4_counterexample :
    (vidClosed.snippet 0 0 false).1
        = Except.error (PyError.valueError "start must be less than video total frames")
    ∧ (vidClosed.display 0 0 false []).1
        = Except.error (PyError.valueError "start must be less than video total frames") :=
  ⟨rfl, rfl⟩

/-- C4 (amended): `__getitem__`, `next`, iteration, `reset` and `seek` check
openness first and fail with an I/O error on a closed session; `snippet` and
`show` perform no openness check — on a closed session the reported frame
count is `0` and every call fails range validation with a `ValueError`,
never with an I/O error. -/
theorem claim_C4 (v : Video) (i start final : Int) (g : Bool) (keys : List Int)
    (hc : v.cap.isOpened = false) :
    (v.getitem i).1 = .error (.ioError ("Video " ++ v.path ++ " is not open"))
    ∧ (v.next g).1 = .error (.ioError ("Video " ++ v.path ++ " is not open"))
    ∧ (v.iterAll g).1 = .error (.ioError ("Video " ++ v.path ++ " is not open"))
    ∧ v.reset.1 = .error (.ioError ("Video " ++ v.path ++ " is not open"))
    ∧ (v.seek i).1 = .error (.ioError ("Video " ++ v.path ++ " is not open"))
    ∧ (v.snippet start final g).1
        = .error (.valueError (if 0 ≤ start then "start must be less than video total frames"
            else "start and final must be positive"))
    ∧ (v.display start final g keys).1
        = .error (.valueError (if 0 ≤ start then "start must be less than video total frames"
            else "start and final must be positive")) := by
  refine ⟨?_, ?_, ?_, ?_, ?_,
    snippet_closed v start final g hc, display_closed v start final g keys hc⟩
  · simp [Video.getitem, hc]
  · simp [Video.next, hc]
  · simp [Video.iterAll, hc]
  · simp [Video.reset, hc]
  · simp [Video.seek, hc]

/-- C4 (witness): the amended claim evaluated on `vidClosed`. -/
theorem claim_C4_witness :
    vidClosed.cap.isOpened = false
    ∧ ((vidClosed.getitem 0).1
          = .error (.ioError ("Video " ++ vidClosed.path ++ " is not open"))
      ∧ (vidClosed.next false).1
          = .error (.ioError ("Video " ++ vidClosed.path ++ " is not open"))
      ∧ (vidClosed.iterAll false).1
          = .error (.ioError ("Video " ++ vidClosed.path ++ " is not open"))
      ∧ vidClosed.reset.1
          = .error (.ioError ("Video " ++ vidClosed.path ++ " is not open"))
      ∧ (vidClosed.seek 0).1
          = .error (.ioError ("Video " ++ vidClosed.path ++ " is not open"))
      ∧ (vidClosed.snippet 0 0 false).1
          = .error (.valueError (if (0 : Int) ≤ 0 then "start must be less than video total frames"
              else "start and final must be positive"))
      ∧ (vidClosed.display 0 0 false []).1
          = .error (.valueError (if (0 : Int) ≤ 0 then "start must be less than video total frames"
              else "start and final must be positive"))) :=
  ⟨by decide, claim_C4 vidClosed 0 0 0 false [] (by decide)⟩

/-- C5 (counterexample): on the open video `vid3`, `seek(-1)` does not raise:
it returns successfully and sets the play-head to `-1`, delegating the
out-of-range position to the underlying library. -/
theorem claim_C5_counterexample :
    (vid3.seek (-1)).1 = Except.ok () ∧ (vid3.seek (-1)).2.cap.pos = -1 :=
  ⟨rfl, rfl⟩

/-- C5 (amended): `seek` validates only openness: on an open session,
`seek(i)` — including `seek(-1)` — succeeds without raising and sets the
play-head to `i`; only a closed session makes `seek` raise. -/
theorem claim_C5 (v : Video) (i : Int) (ho : v.cap.isOpened = true) :
    (v.seek i).1 = .ok () ∧ (v.seek i).2.cap.pos = i := by
  constructor
  · simp [Video.seek, ho]
  · simp [Video.seek, ho, Capture.set_open _ _ ho]

/-- C5 (witness): the amended claim evaluated on `vid3` at `-1`. -/
theorem claim_C5_witness :
    vid3.cap.isOpened = true
    ∧ (vid3.seek (-1)).1 = .ok () ∧ (vid3.seek (-1)).2.cap.pos = -1 :=
  ⟨by decide, claim_C5 vid3 (-1) (by decide)⟩

/-- C6: on an open handle, for `0 ≤ start < frameCount`, `0 < final` and
`start ≤ final`, `snippet` returns the frames at indices
`start, start+1, …` in stream order, exactly `final - start + 1` of them
unless the stream ends first, in which case all remaining frames — the
length of the result is `min (final - start + 1) (frameCount - start)`. -/
theorem claim_C6 (v : Video) (start final : Int) (g : Bool)
    (ho : v.cap.isOpened = true) (h0 : 0 ≤ start) (h1 : start < v.length)
    (hpos : 0 < final) (hsf : start ≤ final) :
    (v.snippet start final g).1
      = .ok (((v.cap.frames.drop start.toNat).take ((final - start).toNat + 1)).map (grayIf g))
    ∧ (((v.cap.frames.drop start.toNat).take ((final - start).toNat + 1)).map (grayIf g)).length
        = min ((final - start).toNat + 1) (v.cap.frames.length - start.toNat) := by
  refine ⟨snippet_result v start final g ho h0 h1 hsf hpos, ?_⟩
  simp [List.length_take, List.length_drop]

/-- C6 (witness): the claim evaluated on `vid3` with `start = 1`,
`final = 2`. -/
theorem claim_C6_witness :
    vid3.cap.isOpened = true ∧ (0 : Int) ≤ 1 ∧ (1 : Int) < vid3.length
    ∧ (0 : Int) < 2 ∧ (1 : Int) ≤ 2
    ∧ (vid3.snippet 1 2 false).1
        = .ok (((vid3.cap.frames.drop (1 : Int).toNat).take
            (((2 : Int) - 1).toNat + 1)).map (grayIf false)) :=
  ⟨by decide, by decide, by decide, by decide, by decide,
    (claim_C6 vid3 1 2 false (by decide) (by decide) (by decide) (by decide) (by decide)).1⟩

/-- C7: after `snippet` returns, and after `show` exits (by completion,
cancel key, or early end-of-stream — `keys` supplies the polled key codes),
the play-head is at frame 0, for every valid range and every initial
play-head position. -/
theorem claim_C7 (v : Video) (start final : Int) (g : Bool) (keys : List Int)
    (ho : v.cap.isOpened = true) (h0 : 0 ≤ start) (h1 : start < v.length)
    (hf : 0 ≤ final) (h2 : final = 0 ∨ start ≤ final) :
    (v.snippet start final g).2.cap.pos = 0
    ∧ (v.display start final g keys).2.cap.pos = 0 :=
  ⟨snippet_pos_zero v start final g ho h0 h1 hf h2,
   display_pos_zero v start final g keys ho h0 h1 hf h2⟩

/-- C7 (witness): the claim evaluated on `vidMid` (play-head parked at 2),
with the cancel key pressed after the first displayed frame. -/
theorem claim_C7_witness :
    vidMid.cap.isOpened = true
    ∧ (vidMid.snippet 0 0 false).2.cap.pos = 0
    ∧ (vidMid.display 0 0 false [113]).2.cap.pos = 0 :=
  ⟨by decide,
    (claim_C7 vidMid 0 0 false [113] (by decide) (by decide) (by decide)
      (by decide) (Or.inl rfl)).1,
    (claim_C7 vidMid 0 0 false [113] (by decide) (by decide) (by decide)
      (by decide) (Or.inl rfl)).2⟩

/-- C8: exhausting the lazy iteration of an open handle (reading until a
read fails, whereupon `__iter__` calls `reset`) leaves the play-head at
frame 0. -/
theorem claim_C8 (v : Video) (g : Bool) (ho : v.cap.isOpened = true) :
    (v.iterAll g).2.cap.pos = 0 :=
  iterAll_pos_zero v g ho

/-- C8 (witness): the claim evaluated on `vidMid`. -/
theorem claim_C8_witness :
    vidMid.cap.isOpened = true ∧ (vidMid.iterAll false).2.cap.pos = 0 :=
  ⟨by decide, claim_C8 vidMid false (by decide)⟩

/-- C9: `astensor` always raises: it calls `self.iterframes()`, an
attribute the `Video` class never defines, so the attribute lookup fails
on every handle and the `return tensor` line is unreachable. -/
theorem claim_C9 (v : Video) :
    v.astensor.1 = .error (.attributeError "Video object has no attribute iterframes") :=
  rfl

/-- C10: at or past end-of-stream, `next()` without grayscale conversion
returns the pair `(False, None)`: the failed read's null value is handed
to the caller together with the false success flag. -/
theorem claim_C10 (v : Video) (ho : v.cap.isOpened = true)
    (heos : (v.cap.frames.length : Int) ≤ v.cap.pos) :
    (v.next false).1 = .ok (false, none) :=
  next_eos_false v ho heos

/-- C10 (witness): the claim evaluated on `vidEOS`. -/
theorem claim_C10_witness :
    vidEOS.cap.isOpened = true
    ∧ (vidEOS.cap.frames.length : Int) ≤ vidEOS.cap.pos
    ∧ (vidEOS.next false).1 = .ok (false, none) :=
  ⟨by decide, by decide, claim_C10 vidEOS (by decide) (by decide)⟩
